import Mathlib

/-!
Shallow embedding of `ecl::generic_bus<Bus>` from
`src/dev/bus/export/dev/bus.hpp` (theCore hardware-bus access coordinator).

Modelling conventions:
* The `uint8_t m_state` bitfield is represented by four named booleans,
  one per flag constant of the source (`bus_inited = 0x1`, `async_mode = 0x2`,
  `bus_locked = 0x4`, `xfer_served = 0x8`); `m_state |= flag` becomes setting
  the field to `true`, `m_state &= ~flag` to `false`, `m_state & flag` reads it.
* `std::atomic_flag m_cleaned` is a boolean; `test_and_set` returns the old
  value and sets it to `true`.
* `ecl::binary_semaphore m_complete` is a boolean token: `signal` sets it,
  `wait` consumes it when present and otherwise blocks, `try_wait` consumes a
  pending token without blocking.
* `ecl::mutex m_lock` is the boolean `m_lock_held` (the coordinator is used by
  one caller thread at a time in this sequential embedding; `lock` on a held
  mutex blocks).
* The platform bus (`Bus`, external capability) keeps buffer bindings; they are
  modelled freely as the list of binding calls issued since the last
  `reset_buffers()` (`m_bufs`), so "bindings unchanged" is list equality.
* Functions return `Option _`: `none` models the abnormal outcomes — a failed
  `ecl_assert` (fatal precondition violation), invoking an empty
  `std::function`, or blocking forever on a wait that can never be satisfied.
* Each operation also returns a trace of the externally observable actions it
  performed, in program order; `action.do_xfer` records the coordinator state
  at the moment `m_bus.do_xfer()` is invoked.
* The interrupt-driven completion events that may arrive while a blocking
  `xfer()` waits on `m_complete` are passed in as an explicit list and are
  delivered through `bus_handler` before the wait is evaluated.
-/

/-- Platform-bus event taxonomy: a terminal `xfer_done` variant plus opaque
transport-defined variants (`Bus::event`, compared with
`type == Bus::event::xfer_done` in `bus_handler`). -/
inductive event where
  | xfer_done : event
  | other : Nat → event
deriving DecidableEq, Repr

/-- Modelled from the spec: `ecl::err` comes from `ecl/err.hpp`, which is not
under `src/`. The spec's error taxonomy is `InvalidArgument`, `Busy`,
`TransportError`, plus success; the source additionally returns the distinct
enumerator `err::again` from `set_buffers`. Transport-defined failures are
opaque codes. -/
inductive err where
  | ok : err
  | inval : err
  | again : err
  | busy : err
  | transportErr : Nat → err
deriving DecidableEq, Repr

/-- Modelled from the spec: `is_ok` of `ecl/err.hpp` (not under `src/`) —
success is exactly `err::ok`. -/
def is_ok (e : err) : Bool := e == err.ok

/-- Modelled from the spec: `is_error` of `ecl/err.hpp` (not under `src/`) —
every value other than `err::ok` is an error. -/
def is_error (e : err) : Bool := !(is_ok e)

/-- One buffer-binding call made on the platform bus. The transport's binding
state is the list of such calls since the last `reset_buffers()`. Pointers are
`Option Nat` (a `none` pointer is null). -/
inductive tcall where
  | set_tx : Option Nat → Nat → tcall
  | set_rx : Option Nat → Nat → tcall
  | set_tx_fill : Nat → Nat → tcall
deriving DecidableEq, Repr

/-- The coordinator's state: the four `m_state` flags, the atomic cleanup
flag, the stored user handler (`none` = empty `std::function`; a stored
handler is identified by a `Nat`), the binary completion semaphore, the
caller-side mutex, and the transport's buffer bindings. -/
structure bus_state where
  bus_inited : Bool
  async_mode : Bool
  bus_locked : Bool
  xfer_served : Bool
  m_cleaned : Bool
  m_handler : Option Nat
  m_complete : Bool
  m_lock_held : Bool
  m_bufs : List tcall
deriving DecidableEq, Repr

/-- Externally observable actions, recorded in program order. -/
inductive action where
  | mutex_lock : action
  | mutex_unlock : action
  | sem_wait : action
  | sem_try_wait : action
  | sem_signal : action
  | do_xfer : bus_state → action
  | invoke_handler : Option Nat → event → action
  | clear_locked : action
  | test_and_set : Bool → action
  | run_cleanup : action
deriving DecidableEq, Repr

/-- Constructor `generic_bus()`: all flags clear, `m_cleaned{false}`, empty
handler, idle semaphore and mutex, no bindings. -/
def bus_ctor : bus_state :=
  { bus_inited := false, async_mode := false, bus_locked := false
    xfer_served := false, m_cleaned := false, m_handler := none
    m_complete := false, m_lock_held := false, m_bufs := [] }

/-- Busy check `generic_bus::bus_is_busy()`, transcribed literally:
`in_progress = false; if (m_state & async_mode) in_progress = !(m_state & async_mode);`. -/
def bus_is_busy (s : bus_state) : Bool :=
  if s.async_mode then !s.async_mode else false

/-- Cleanup routine `generic_bus::cleanup()`: `m_bus.reset_buffers(); m_handler = handler_fn{};`. -/
def cleanup (s : bus_state) : bus_state :=
  { s with m_bufs := [], m_handler := none }

/-- Initialization `generic_bus::init()`: registers the callback adapter, runs
`m_bus.init()` (its transport-defined result `rc` is an input), sets
`bus_inited` on success, returns `rc` unchanged. -/
def init (s : bus_state) (rc : err) : err × bus_state :=
  if is_ok rc then (rc, { s with bus_inited := true }) else (rc, s)

/-- Locking `generic_bus::lock()`: asserts `bus_inited`, acquires `m_lock`, sets
`bus_locked`, and if `async_mode` is set waits on `m_complete` (blocking —
`none` — when no completion signal is pending). -/
def lock (s : bus_state) : Option (bus_state × List action) :=
  if s.bus_inited then
    if s.m_lock_held then none
    else
      let s1 := { s with m_lock_held := true, bus_locked := true }
      if s1.async_mode then
        if s1.m_complete then
          some ({ s1 with m_complete := false }, [action.mutex_lock, action.sem_wait])
        else none
      else some (s1, [action.mutex_lock])
  else none

/-- Unlocking `generic_bus::unlock()`: asserts `bus_locked`, clears it, then in async
mode performs the `xfer_served`-guarded `m_cleaned.test_and_set()` and cleans
up only on winning, while in block mode cleans up unconditionally; finally
releases `m_lock`. -/
def unlock (s : bus_state) : Option (bus_state × List action) :=
  if s.bus_locked then
    let s1 := { s with bus_locked := false }
    let step :=
      if s1.async_mode then
        if s1.xfer_served then
          let prev := s1.m_cleaned
          let s2 := { s1 with m_cleaned := true }
          if prev then (s2, [action.clear_locked, action.test_and_set prev])
          else (cleanup s2, [action.clear_locked, action.test_and_set prev, action.run_cleanup])
        else (s1, [action.clear_locked])
      else (cleanup s1, [action.clear_locked, action.run_cleanup])
    some ({ step.1 with m_lock_held := false }, step.2 ++ [action.mutex_unlock])
  else none

/-- Buffer binding `generic_bus::set_buffers(const uint8_t *tx, uint8_t *rx, size_t size)`:
asserts `bus_locked`; both-null fails with `err::inval`; a busy bus fails with
`err::again`; otherwise `reset_buffers`, `set_tx(tx, size)`, `set_rx(rx, size)`
and `err::ok`. -/
def set_buffers (s : bus_state) (tx rx : Option Nat) (size : Nat) :
    Option (err × bus_state) :=
  if s.bus_locked then
    if tx = none ∧ rx = none then some (err.inval, s)
    else if bus_is_busy s then some (err.again, s)
    else some (err.ok, { s with m_bufs := [tcall.set_tx tx size, tcall.set_rx rx size] })
  else none

/-- Fill-buffer binding `generic_bus::set_buffers(size_t size, uint8_t fill_byte)`: asserts
`bus_locked`; a busy bus fails with `err::again`; otherwise `reset_buffers`,
`set_tx(size, fill_byte)` and `err::ok`. -/
def set_buffers_fill (s : bus_state) (size fill_byte : Nat) :
    Option (err × bus_state) :=
  if s.bus_locked then
    if bus_is_busy s then some (err.again, s)
    else some (err.ok, { s with m_bufs := [tcall.set_tx_fill size fill_byte] })
  else none

/-- Completion callback `generic_bus::bus_handler(type)`: on the terminal event asserts
`!(m_state & xfer_served)` and sets `xfer_served`; in async mode invokes the
stored handler for every event (`none` if the stored `std::function` is
empty), and on a terminal event with the bus already unlocked attempts
`m_cleaned.test_and_set()` and cleans up on winning; finally signals
`m_complete` on a terminal event. -/
def bus_handler (s : bus_state) (type : event) : Option (bus_state × List action) :=
  let last_event : Bool := type == event.xfer_done
  if last_event ∧ s.xfer_served then none
  else
    let s1 := if last_event then { s with xfer_served := true } else s
    let step :=
      if s1.async_mode then
        match s1.m_handler with
        | none => none
        | some h =>
          let tr := [action.invoke_handler (some h) type]
          if last_event ∧ s1.bus_locked = false then
            let prev := s1.m_cleaned
            let s2 := { s1 with m_cleaned := true }
            if prev then some (s2, tr ++ [action.test_and_set prev])
            else some (cleanup s2, tr ++ [action.test_and_set prev, action.run_cleanup])
          else some (s1, tr)
      else some (s1, [])
    match step with
    | none => none
    | some (s2, tr) =>
      if last_event then
        some ({ s2 with m_complete := true }, tr ++ [action.sem_signal])
      else some (s2, tr)

/-- Delivers a list of completion events through `bus_handler`, in order,
threading the state and concatenating the traces. -/
def deliver (s : bus_state) : List event → Option (bus_state × List action)
  | [] => some (s, [])
  | e :: es =>
    match bus_handler s e with
    | none => none
    | some (s1, tr1) =>
      match deliver s1 es with
      | none => none
      | some (s2, tr2) => some (s2, tr1 ++ tr2)

/-- Blocking `generic_bus::xfer()`: asserts `bus_locked`; busy fails with
`err::busy`; otherwise clears `async_mode` and `xfer_served`, resets the
semaphore with `try_wait`, invokes `do_xfer` (its transport result `rc` is an
input). On a transport error, sets `xfer_served` and returns `rc` without
waiting; on success, the interrupt context delivers `events` through
`bus_handler` and the call completes only once `m_complete.wait()` can consume
a signal. -/
def xfer (s : bus_state) (rc : err) (events : List event) :
    Option (err × bus_state × List action) :=
  if s.bus_locked then
    if bus_is_busy s then some (err.busy, s, [])
    else
      let s1 := { s with async_mode := false, xfer_served := false, m_complete := false }
      if is_error rc then
        some (rc, { s1 with xfer_served := true },
              [action.sem_try_wait, action.do_xfer s1])
      else
        match deliver s1 events with
        | none => none
        | some (s2, tr) =>
          if s2.m_complete then
            some (rc, { s2 with m_complete := false },
                  [action.sem_try_wait, action.do_xfer s1] ++ tr ++ [action.sem_wait])
          else none
  else none

/-- Event-driven `generic_bus::xfer(const handler_fn &handler)`: asserts
`bus_locked`; busy fails with `err::busy`; otherwise sets `async_mode`, stores
the handler, invokes `do_xfer` (result `rc` is an input). On a transport
error, sets `xfer_served` and clears `async_mode`; on success, clears
`xfer_served`; returns `rc` without blocking. -/
def xfer_handler (s : bus_state) (h : Nat) (rc : err) :
    Option (err × bus_state × List action) :=
  if s.bus_locked then
    if bus_is_busy s then some (err.busy, s, [])
    else
      let s1 := { s with async_mode := true, m_handler := some h }
      if is_error rc then
        some (rc, { s1 with xfer_served := true, async_mode := false },
              [action.do_xfer s1])
      else
        some (rc, { s1 with xfer_served := false }, [action.do_xfer s1])
  else none

/-- The `xfer_served` flag of the coordinator state recorded at the (first)
`do_xfer` call of a trace. -/
def served_at_do_xfer (tr : List action) : Option Bool :=
  tr.findSome? fun a =>
    match a with
    | action.do_xfer st => some st.xfer_served
    | _ => none

/-! ### Concrete states used as inputs to counterexamples and witnesses -/

/-- Coordinator state in the middle of an outstanding event-driven transfer:
locked, `async_mode` set, terminal event not yet served, buffers bound,
handler stored, cleanup flag claimed by nobody yet. -/
def busy_state : bus_state :=
  { bus_inited := true, async_mode := true, bus_locked := true
    xfer_served := false, m_cleaned := false, m_handler := some 7
    m_complete := false, m_lock_held := true
    m_bufs := [tcall.set_tx (some 1) 2, tcall.set_rx (some 2) 2] }

/-- Coordinator state right after a completed blocking transfer, still
locked: `async_mode` clear and `xfer_served` still `true` from the previous
transfer. -/
def prev_served_state : bus_state :=
  { bus_inited := true, async_mode := false, bus_locked := true
    xfer_served := true, m_cleaned := false, m_handler := none
    m_complete := false, m_lock_held := true, m_bufs := [] }

/-! ### Helper lemmas -/

/-- In the source as transcribed, the busy check can never report `true`:
the inner test negates the very flag the outer guard just required. -/
theorem bus_is_busy_false (s : bus_state) : bus_is_busy s = false := by
  unfold bus_is_busy
  cases h : s.async_mode <;> simp [h]

/-- Characterization of a normally returning `bus_handler` call: it never
changes `async_mode`; it can newly signal the completion semaphore only on
the terminal event; on the terminal event it sets `xfer_served` and its last
action is the semaphore signal; on a non-terminal event it leaves
`xfer_served` and the semaphore untouched and never signals. -/
theorem bus_handler_some (s : bus_state) (e : event) (s' : bus_state) (tr : List action)
    (h : bus_handler s e = some (s', tr)) :
    s'.async_mode = s.async_mode ∧
    (s'.m_complete = true → s.m_complete = true ∨ e = event.xfer_done) ∧
    (e = event.xfer_done → s'.xfer_served = true ∧ tr.getLast? = some action.sem_signal) ∧
    (e ≠ event.xfer_done → s'.xfer_served = s.xfer_served ∧
      action.sem_signal ∉ tr ∧ s'.m_complete = s.m_complete) := by
  obtain ⟨i, a, l, sv, c, hd, cm, mh, bf⟩ := s
  cases e <;> cases a <;> cases sv <;> cases l <;> cases c <;> cases hd <;>
    simp_all [bus_handler, cleanup] <;>
    (obtain ⟨rfl, rfl⟩ := h) <;> simp

/-- Characterization of delivering a list of completion events: `async_mode`
is preserved, and the completion semaphore can become newly signaled only if
the list contains the terminal event. -/
theorem deliver_some (es : List event) (s s' : bus_state) (tr : List action)
    (h : deliver s es = some (s', tr)) :
    s'.async_mode = s.async_mode ∧
    (s'.m_complete = true → s.m_complete = true ∨ event.xfer_done ∈ es) := by
  induction es generalizing s tr with
  | nil =>
    simp only [deliver] at h
    obtain ⟨rfl, rfl⟩ := h
    exact ⟨rfl, fun hc => Or.inl hc⟩
  | cons e es ih =>
    simp only [deliver] at h
    cases h1 : bus_handler s e with
    | none => rw [h1] at h; exact absurd h (by simp)
    | some r =>
      obtain ⟨s1, tr1⟩ := r
      cases h2 : deliver s1 es with
      | none => simp only [h1, h2] at h; exact absurd h (by simp)
      | some r2 =>
        obtain ⟨s2, tr2⟩ := r2
        simp only [h1, h2, Option.some.injEq, Prod.mk.injEq] at h
        obtain ⟨rfl, rfl⟩ := h
        obtain ⟨ha1, hc1, hterm, _⟩ := bus_handler_some s e s1 tr1 h1
        obtain ⟨ha2, hc2⟩ := ih s1 tr2 h2
        refine ⟨ha2.trans ha1, fun hc => ?_⟩
        rcases hc2 hc with h' | h'
        · rcases hc1 h' with h'' | h''
          · exact Or.inl h''
          · exact Or.inr (by simp [h''])
        · exact Or.inr (List.mem_cons_of_mem _ h')

/-! ### Claim theorems -/

/-- C1: the claim fails on the source. `bus_is_busy()` as written computes
`async_mode && !async_mode`, which is `false` for every state — in particular
for `busy_state`, where an event-driven transfer is outstanding
(`async_mode` set, terminal event not served). Consequently neither `xfer()`
overload returns `err::busy` there: both proceed and report `err::ok`. -/
theorem C1_busy_check_broken :
    (∀ s : bus_state, bus_is_busy s = false) ∧
    busy_state.async_mode = true ∧ busy_state.xfer_served = false ∧
    (xfer busy_state err.ok [event.xfer_done]).map (fun r => r.1) = some err.ok ∧
    (xfer_handler busy_state 9 err.ok).map (fun r => r.1) = some err.ok := by
  exact ⟨bus_is_busy_false, by decide, by decide, by decide, by decide⟩

/-- C4: the claim fails on the source. With an event-driven transfer
outstanding (`busy_state`), both `set_buffers` overloads proceed — the broken
busy check never rejects them — returning `err::ok` and rebinding the
transport's buffers (the respective branch that would reject would moreover
return `err::again`, not `err::busy`). -/
theorem C4_set_buffers_not_rejected_when_busy :
    busy_state.async_mode = true ∧ busy_state.xfer_served = false ∧
    set_buffers busy_state (some 3) none 4 =
      some (err.ok, { busy_state with
        m_bufs := [tcall.set_tx (some 3) 4, tcall.set_rx none 4] }) ∧
    set_buffers_fill busy_state 4 255 =
      some (err.ok, { busy_state with m_bufs := [tcall.set_tx_fill 4 255] }) := by
  exact ⟨by decide, by decide, by decide, by decide⟩

/-- C9: with the bus locked, `set_buffers(null, null, n)` returns
`err::inval` for every size `n` and leaves the whole coordinator state — in
particular the transport's buffer bindings — unchanged. -/
theorem C9_null_buffers_inval (s : bus_state) (n : Nat) (hl : s.bus_locked = true) :
    set_buffers s none none n = some (err.inval, s) := by
  simp [set_buffers, hl]

/-- C9 witness. -/
theorem C9_null_buffers_inval_witness :
    set_buffers prev_served_state none none 5 = some (err.inval, prev_served_state) :=
  C9_null_buffers_inval prev_served_state 5 (by decide)

/-- Coordinator state after an event-driven cycle completed and the bus was
unlocked: `async_mode` still set, terminal event served, cleanup done, a
completion signal pending, mutex free. -/
def idle_async_state : bus_state :=
  { bus_inited := true, async_mode := true, bus_locked := false
    xfer_served := true, m_cleaned := true, m_handler := none
    m_complete := true, m_lock_held := false, m_bufs := [] }

/-- Result of `lock idle_async_state`: the lock is taken and the pending
completion signal of the prior async transfer is consumed by a wait. -/
def idle_lock_result : bus_state × List action :=
  ({ idle_async_state with m_lock_held := true, bus_locked := true, m_complete := false },
   [action.mutex_lock, action.sem_wait])

/-- C10: `cleanup()` touches only the transport's buffer bindings (reset) and
the stored handler (cleared); every `m_state` flag, the atomic cleanup flag,
the completion semaphore and the mutex are unchanged — in particular
`async_mode` survives cleanup, and a `lock()` call waits on the completion
semaphore exactly when `async_mode` is set. -/
theorem C10_cleanup_frame (s t : bus_state) (r : bus_state × List action)
    (hr : lock t = some r) :
    (cleanup s).bus_inited = s.bus_inited ∧
    (cleanup s).bus_locked = s.bus_locked ∧
    (cleanup s).async_mode = s.async_mode ∧
    (cleanup s).xfer_served = s.xfer_served ∧
    (cleanup s).m_cleaned = s.m_cleaned ∧
    (cleanup s).m_complete = s.m_complete ∧
    (cleanup s).m_lock_held = s.m_lock_held ∧
    (cleanup s).m_bufs = [] ∧ (cleanup s).m_handler = none ∧
    (action.sem_wait ∈ r.2 ↔ t.async_mode = true) := by
  refine ⟨rfl, rfl, rfl, rfl, rfl, rfl, rfl, rfl, rfl, ?_⟩
  obtain ⟨s', tr⟩ := r
  obtain ⟨i, a, l, sv, c, hd, cm, mh, bf⟩ := t
  cases i <;> cases a <;> cases cm <;> cases mh <;>
    simp_all [lock] <;> (obtain ⟨rfl, rfl⟩ := hr) <;> simp

/-- C10 witness. -/
theorem C10_cleanup_frame_witness :
    (cleanup busy_state).bus_inited = busy_state.bus_inited ∧
    (cleanup busy_state).bus_locked = busy_state.bus_locked ∧
    (cleanup busy_state).async_mode = busy_state.async_mode ∧
    (cleanup busy_state).xfer_served = busy_state.xfer_served ∧
    (cleanup busy_state).m_cleaned = busy_state.m_cleaned ∧
    (cleanup busy_state).m_complete = busy_state.m_complete ∧
    (cleanup busy_state).m_lock_held = busy_state.m_lock_held ∧
    (cleanup busy_state).m_bufs = [] ∧ (cleanup busy_state).m_handler = none ∧
    (action.sem_wait ∈ idle_lock_result.2 ↔ idle_async_state.async_mode = true) :=
  C10_cleanup_frame busy_state idle_async_state idle_lock_result (by decide)

/-- Coordinator state after the second event-driven transfer issuance of two
back-to-back async lifecycles: `init` (success), `lock`, `set_buffers`,
`xfer(handler)` (success), terminal event, `unlock`, then `lock`,
`set_buffers`, second `xfer(handler)` (success). -/
def second_issue_state : Option bus_state :=
  (lock (init bus_ctor err.ok).2).bind fun r1 =>
  (set_buffers r1.1 (some 1) (some 2) 2).bind fun r2 =>
  (xfer_handler r2.2 7 err.ok).bind fun r3 =>
  (bus_handler r3.2.1 event.xfer_done).bind fun r4 =>
  (unlock r4.1).bind fun r5 =>
  (lock r5.1).bind fun r6 =>
  (set_buffers r6.1 (some 3) (some 4) 2).bind fun r7 =>
  (xfer_handler r7.2 9 err.ok).map fun r8 => r8.2.1

/-- Coordinator state after the second lifecycle also finishes: terminal
event delivered, then `unlock`. -/
def second_lifecycle_end : Option bus_state :=
  second_issue_state.bind fun s9 =>
  (bus_handler s9 event.xfer_done).bind fun r10 =>
  (unlock r10.1).map Prod.fst

/-- C2: the claim fails on the source. `m_cleaned` is set once (`{false}`) in
the constructor and is never cleared anywhere: at the second event-driven
issuance it is still `true` from the first lifecycle's `test_and_set`, so the
second lifecycle ends with the buffers still bound and the handler still
stored — cleanup never runs again. -/
theorem C2_cleaned_never_reset :
    second_issue_state.map (fun s => s.m_cleaned) = some true ∧
    second_lifecycle_end.map (fun s => (s.m_cleaned, s.m_handler, s.m_bufs)) =
      some (true, some 9, [tcall.set_tx (some 3) 2, tcall.set_rx (some 4) 2]) := by
  exact ⟨by decide, by decide⟩

/-- C3 counterexample: the claim fails on the source for the event-driven
overload. Issuing `xfer(handler)` from a state whose previous transfer was
already served (`xfer_served` still `true`) invokes `do_xfer` with
`xfer_served` still `true`: the flag is not reset before the transport call. -/
theorem C3_counterexample_async_reset_after :
    (xfer_handler prev_served_state 5 err.ok).map (fun r => served_at_do_xfer r.2.2) =
      some (some true) := by decide

/-- C3 (amended): blocking `xfer()` resets `xfer_served` to `false` before
invoking `do_xfer`; event-driven `xfer(handler)` leaves `xfer_served`
unchanged at the `do_xfer` call and only afterwards clears it on a successful
return (setting it on a transport error). -/
theorem C3_served_reset_placement (s : bus_state) (hl : s.bus_locked = true)
    (rc : err) (events : List event) (h : Nat)
    (rb ra : err × bus_state × List action)
    (hb : xfer s rc events = some rb) (ha : xfer_handler s h rc = some ra) :
    served_at_do_xfer rb.2.2 = some false ∧
    served_at_do_xfer ra.2.2 = some s.xfer_served ∧
    ra.2.1.xfer_served = is_error rc := by
  have hbb := bus_is_busy_false s
  constructor
  · by_cases he : is_error rc = true <;> simp [xfer, hl, hbb, he] at hb
    · obtain rfl := hb
      simp [served_at_do_xfer]
    · split at hb
      · exact absurd hb (by simp)
      · split at hb
        · obtain rfl := Option.some.inj hb
          simp [served_at_do_xfer]
        · exact absurd hb (by simp)
  constructor
  · by_cases he : is_error rc = true <;> simp [xfer_handler, hl, hbb, he] at ha <;>
      obtain rfl := ha <;> simp [served_at_do_xfer]
  · by_cases he : is_error rc = true <;> simp [xfer_handler, hl, hbb, he] at ha <;>
      obtain rfl := ha <;> simp [he]

/-- Result of a blocking `xfer` from `prev_served_state` with a successful
transport result and one terminal event. -/
def c3_rb : err × bus_state × List action :=
  (xfer prev_served_state err.ok [event.xfer_done]).getD (err.ok, prev_served_state, [])

/-- Result of an event-driven `xfer` from `prev_served_state` with a
successful transport result. -/
def c3_ra : err × bus_state × List action :=
  (xfer_handler prev_served_state 5 err.ok).getD (err.ok, prev_served_state, [])

/-- C3 witness. -/
theorem C3_served_reset_placement_witness :
    served_at_do_xfer c3_rb.2.2 = some false ∧
    served_at_do_xfer c3_ra.2.2 = some prev_served_state.xfer_served ∧
    c3_ra.2.1.xfer_served = is_error err.ok :=
  C3_served_reset_placement prev_served_state (by decide) err.ok [event.xfer_done] 5
    c3_rb c3_ra (by decide) (by decide)

/-- C5: when the transport's `do_xfer` reports an error during event-driven
`xfer(handler)` on a locked bus, the call returns that error with
`xfer_served` set and `async_mode` cleared, and the busy check reports not
busy afterwards. -/
theorem C5_async_error_leaves_ready (s : bus_state) (hl : s.bus_locked = true)
    (h : Nat) (rc : err) (he : is_error rc = true)
    (r : err × bus_state × List action) (hr : xfer_handler s h rc = some r) :
    r.1 = rc ∧ r.2.1.xfer_served = true ∧ r.2.1.async_mode = false ∧
    bus_is_busy r.2.1 = false := by
  simp [xfer_handler, hl, bus_is_busy_false s, he] at hr
  obtain rfl := hr
  exact ⟨rfl, rfl, rfl, bus_is_busy_false _⟩


/-- Result of an event-driven `xfer` from `busy_state` whose transport call
fails (C5 witness input). -/
def c5_r : err × bus_state × List action :=
  (xfer_handler busy_state 9 (err.transportErr 3)).getD (err.ok, busy_state, [])

/-- C5 witness. -/
theorem C5_async_error_leaves_ready_witness :
    c5_r.1 = err.transportErr 3 ∧ c5_r.2.1.xfer_served = true ∧
    c5_r.2.1.async_mode = false ∧ bus_is_busy c5_r.2.1 = false :=
  C5_async_error_leaves_ready busy_state (by decide) 9 (err.transportErr 3) (by decide)
    c5_r (by decide)

/-- C6: blocking `xfer()` on a locked, not-busy bus clears `async_mode`; on a
transport error it sets `xfer_served` and returns the error without ever
waiting on the completion semaphore; on transport success it returns the
success result only after waiting on the completion semaphore, which requires
the terminal event to have been delivered. -/
theorem C6_blocking_xfer (s : bus_state) (hl : s.bus_locked = true)
    (_hnb : ¬(s.async_mode = true ∧ s.xfer_served = false))
    (rc : err) (events : List event)
    (r : err × bus_state × List action) (hr : xfer s rc events = some r) :
    r.1 = rc ∧ r.2.1.async_mode = false ∧
    (is_error rc = true → r.2.1.xfer_served = true ∧ action.sem_wait ∉ r.2.2) ∧
    (is_error rc = false → action.sem_wait ∈ r.2.2 ∧ event.xfer_done ∈ events) := by
  have hbb := bus_is_busy_false s
  by_cases he : is_error rc = true <;> simp [xfer, hl, hbb, he] at hr
  · obtain rfl := hr
    exact ⟨rfl, rfl, fun _ => ⟨rfl, by simp⟩, fun hcon => by simp [he] at hcon⟩
  · split at hr
    · exact absurd hr (by simp)
    · rename_i s2 tr hd
      split at hr
      · rename_i hc
        obtain rfl := Option.some.inj hr
        obtain ⟨ha2, hc2⟩ := deliver_some events _ s2 tr hd
        refine ⟨rfl, ?_, fun hcon => by simp [hcon] at he, fun _ => ⟨by simp, ?_⟩⟩
        · simpa using ha2
        · rcases hc2 hc with h' | h'
          · simp at h'
          · exact h'
      · exact absurd hr (by simp)


/-- Result of a blocking `xfer` from `prev_served_state` with a successful
transport result and one terminal event (C6 witness input). -/
def c6_r : err × bus_state × List action :=
  (xfer prev_served_state err.ok [event.xfer_done]).getD (err.ok, prev_served_state, [])

/-- C6 witness. -/
theorem C6_blocking_xfer_witness :
    c6_r.1 = err.ok ∧ c6_r.2.1.async_mode = false ∧
    (is_error err.ok = true → c6_r.2.1.xfer_served = true ∧ action.sem_wait ∉ c6_r.2.2) ∧
    (is_error err.ok = false →
      action.sem_wait ∈ c6_r.2.2 ∧ event.xfer_done ∈ [event.xfer_done]) :=
  C6_blocking_xfer prev_served_state (by decide) (by decide) err.ok [event.xfer_done]
    c6_r (by decide)

/-- C7: `unlock()` on a locked bus clears the `bus_locked` flag first (the
first recorded action), releases the mutex last, and in block mode runs
cleanup unconditionally, while in async mode it attempts the atomic
test-and-set and cleans up exactly when it wins (`m_cleaned` was clear) if
the terminal event was served, and touches neither the cleanup flag nor the
cleanup routine if it was not. -/
theorem C7_unlock_protocol (s : bus_state) (hl : s.bus_locked = true)
    (r : bus_state × List action) (hr : unlock s = some r) :
    r.1.bus_locked = false ∧
    r.2.head? = some action.clear_locked ∧
    r.2.getLast? = some action.mutex_unlock ∧
    r.1.m_lock_held = false ∧
    (s.async_mode = false → action.run_cleanup ∈ r.2) ∧
    (s.async_mode = true → s.xfer_served = true →
      action.test_and_set s.m_cleaned ∈ r.2 ∧
      (action.run_cleanup ∈ r.2 ↔ s.m_cleaned = false)) ∧
    (s.async_mode = true → s.xfer_served = false →
      action.run_cleanup ∉ r.2 ∧
      action.test_and_set false ∉ r.2 ∧ action.test_and_set true ∉ r.2) := by
  obtain ⟨s', tr⟩ := r
  obtain ⟨i, a, l, sv, c, hd, cm, mh, bf⟩ := s
  simp only at hl
  subst hl
  cases a <;> cases sv <;> cases c <;>
    simp_all [unlock, cleanup] <;> (obtain ⟨rfl, rfl⟩ := hr) <;> simp


/-- Coordinator state holding the lock after an async transfer's terminal
event has been served. -/
def served_locked_state : bus_state :=
  { bus_inited := true, async_mode := true, bus_locked := true
    xfer_served := true, m_cleaned := false, m_handler := some 7
    m_complete := true, m_lock_held := true
    m_bufs := [tcall.set_tx (some 1) 2, tcall.set_rx (some 2) 2] }

/-- Result of `unlock served_locked_state` (C7 witness input). -/
def c7_r : bus_state × List action :=
  (unlock served_locked_state).getD (bus_ctor, [])

/-- C7 witness. -/
theorem C7_unlock_protocol_witness :
    c7_r.1.bus_locked = false ∧
    c7_r.2.head? = some action.clear_locked ∧
    c7_r.2.getLast? = some action.mutex_unlock ∧
    c7_r.1.m_lock_held = false ∧
    (served_locked_state.async_mode = false → action.run_cleanup ∈ c7_r.2) ∧
    (served_locked_state.async_mode = true → served_locked_state.xfer_served = true →
      action.test_and_set served_locked_state.m_cleaned ∈ c7_r.2 ∧
      (action.run_cleanup ∈ c7_r.2 ↔ served_locked_state.m_cleaned = false)) ∧
    (served_locked_state.async_mode = true → served_locked_state.xfer_served = false →
      action.run_cleanup ∉ c7_r.2 ∧
      action.test_and_set false ∉ c7_r.2 ∧ action.test_and_set true ∉ c7_r.2) :=
  C7_unlock_protocol served_locked_state (by decide) c7_r (by decide)

/-- C8: the completion callback treats a terminal event arriving with
`xfer_served` already set as a fatal assertion failure; a normally returning
terminal delivery sets `xfer_served` and its very last action signals the
completion semaphore (after any handler invocation and cleanup attempt);
a non-terminal delivery leaves `xfer_served` unchanged and never signals. -/
theorem C8_bus_handler_events (s : bus_state) (type : event) :
    (type = event.xfer_done → s.xfer_served = true → bus_handler s type = none) ∧
    (∀ r : bus_state × List action, bus_handler s type = some r →
      type = event.xfer_done →
      r.1.xfer_served = true ∧ r.2.getLast? = some action.sem_signal) ∧
    (∀ r : bus_state × List action, bus_handler s type = some r →
      type ≠ event.xfer_done →
      r.1.xfer_served = s.xfer_served ∧ action.sem_signal ∉ r.2) := by
  refine ⟨?_, ?_, ?_⟩
  · rintro rfl hs
    simp [bus_handler, hs]
  · rintro ⟨s', tr⟩ hr rfl
    exact (bus_handler_some s _ s' tr hr).2.2.1 rfl
  · rintro ⟨s', tr⟩ hr hne
    obtain ⟨-, -, -, h4⟩ := bus_handler_some s type s' tr hr
    obtain ⟨a, b, -⟩ := h4 hne
    exact ⟨a, b⟩

/-- Result of delivering the terminal event in `busy_state` (C8 witness
input). -/
def c8_term_r : bus_state × List action :=
  (bus_handler busy_state event.xfer_done).getD (bus_ctor, [])

/-- Result of delivering a non-terminal event in `busy_state` (C8 witness
input). -/
def c8_other_r : bus_state × List action :=
  (bus_handler busy_state (event.other 0)).getD (bus_ctor, [])

/-- C8 witness. -/
theorem C8_bus_handler_events_witness :
    bus_handler prev_served_state event.xfer_done = none ∧
    (c8_term_r.1.xfer_served = true ∧ c8_term_r.2.getLast? = some action.sem_signal) ∧
    (c8_other_r.1.xfer_served = busy_state.xfer_served ∧
      action.sem_signal ∉ c8_other_r.2) :=
  ⟨(C8_bus_handler_events prev_served_state event.xfer_done).1 rfl (by decide),
   (C8_bus_handler_events busy_state event.xfer_done).2.1 c8_term_r (by decide) rfl,
   (C8_bus_handler_events busy_state (event.other 0)).2.2 c8_other_r (by decide) (by decide)⟩
